import Mathlib

/-!
Verification of the scene-data container of gl_vk_meshlet_cadscene
(src/cadscene.hpp), shallowly embedded in Lean 4.

Float coordinates (nvmath vec4f, 32-bit floats) are modelled as exact
rationals; the bounding-box operations under study (componentwise min, max
and affine matrix application) perform no rounding-sensitive arithmetic, so
their order-theoretic behaviour is captured exactly.  FLT_MAX is modelled
by its exact real value (2 - 2^-23) * 2^127.
-/

namespace CadScene

/-- Model of nvmath vec4f: a 4-component vector with exact coordinates. -/
structure Vec4 where
  x : Rat
  y : Rat
  z : Rat
  w : Rat
deriving DecidableEq, Repr

def Vec4.zero : Vec4 := ⟨0, 0, 0, 0⟩

/-- Componentwise minimum, modelling nvmath nv_min on vec4f. -/
def nvMin (a b : Vec4) : Vec4 :=
  ⟨min a.x b.x, min a.y b.y, min a.z b.z, min a.w b.w⟩

/-- Componentwise maximum, modelling nvmath nv_max on vec4f. -/
def nvMax (a b : Vec4) : Vec4 :=
  ⟨max a.x b.x, max a.y b.y, max a.z b.z, max a.w b.w⟩

/-- Componentwise order on vectors. -/
def Vec4.le (a b : Vec4) : Prop :=
  a.x ≤ b.x ∧ a.y ≤ b.y ∧ a.z ≤ b.z ∧ a.w ≤ b.w

instance (a b : Vec4) : Decidable (Vec4.le a b) := by
  unfold Vec4.le; infer_instance

/-- Exact value of FLT_MAX, the largest finite 32-bit float:
(2 - 2^-23) * 2^127 = 2^128 - 2^104. -/
def fltMax : Rat := 340282346638528859811704183484516925440

theorem fltMax_eq_pow : fltMax = 2 ^ 128 - 2 ^ 104 := by norm_num [fltMax]

/-- Model of a 4x4 float matrix (nvmath mat4f), stored as its four rows. -/
structure Mat4 where
  r0 : Vec4
  r1 : Vec4
  r2 : Vec4
  r3 : Vec4
deriving DecidableEq, Repr

def dot (a b : Vec4) : Rat :=
  a.x * b.x + a.y * b.y + a.z * b.z + a.w * b.w

/-- Matrix-vector product, modelling nvmath operator* (mat4f, vec4f). -/
def mulVec (m : Mat4) (v : Vec4) : Vec4 :=
  ⟨dot m.r0 v, dot m.r1 v, dot m.r2 v, dot m.r3 v⟩

def Mat4.identity : Mat4 :=
  ⟨⟨1, 0, 0, 0⟩, ⟨0, 1, 0, 0⟩, ⟨0, 0, 1, 0⟩, ⟨0, 0, 0, 1⟩⟩

/-- CadScene::BBox (cadscene.hpp lines 36-94): axis-aligned box given by
componentwise min and max vectors. -/
structure BBox where
  min : Vec4
  max : Vec4
deriving DecidableEq, Repr

/-- The default constructor BBox() (lines 41-45): min is initialised to
FLT_MAX in every component and max to -FLT_MAX. -/
def BBox.init : BBox :=
  ⟨⟨fltMax, fltMax, fltMax, fltMax⟩, ⟨-fltMax, -fltMax, -fltMax, -fltMax⟩⟩

/-- BBox::merge(const vec4f&) (lines 47-51). -/
def BBox.mergePoint (b : BBox) (p : Vec4) : BBox :=
  ⟨nvMin b.min p, nvMax b.max p⟩

/-- BBox::merge(const BBox&) (lines 53-57). -/
def BBox.merge (a b : BBox) : BBox :=
  ⟨nvMin a.min b.min, nvMax a.max b.max⟩

/-- The 16 corner vectors box[0..15] built by BBox::transformed
(lines 64-80), in source order: entries 0-7 take their 4th coordinate from
min.w, entries 8-15 from max.w. -/
def BBox.corners (b : BBox) : List Vec4 :=
  [⟨b.min.x, b.min.y, b.min.z, b.min.w⟩,
   ⟨b.max.x, b.min.y, b.min.z, b.min.w⟩,
   ⟨b.min.x, b.max.y, b.min.z, b.min.w⟩,
   ⟨b.max.x, b.max.y, b.min.z, b.min.w⟩,
   ⟨b.min.x, b.min.y, b.max.z, b.min.w⟩,
   ⟨b.max.x, b.min.y, b.max.z, b.min.w⟩,
   ⟨b.min.x, b.max.y, b.max.z, b.min.w⟩,
   ⟨b.max.x, b.max.y, b.max.z, b.min.w⟩,
   ⟨b.min.x, b.min.y, b.min.z, b.max.w⟩,
   ⟨b.max.x, b.min.y, b.min.z, b.max.w⟩,
   ⟨b.min.x, b.max.y, b.min.z, b.max.w⟩,
   ⟨b.max.x, b.max.y, b.min.z, b.max.w⟩,
   ⟨b.min.x, b.min.y, b.max.z, b.max.w⟩,
   ⟨b.max.x, b.min.y, b.max.z, b.max.w⟩,
   ⟨b.min.x, b.max.y, b.max.z, b.max.w⟩,
   ⟨b.max.x, b.max.y, b.max.z, b.max.w⟩]

/-- BBox::transformed(matrix, dim) (lines 59-93): the loop visits corners
box[i] for i < (1 << dim), transforms each by the matrix and merges it into
a freshly default-constructed box. -/
def BBox.transformed (b : BBox) (m : Mat4) (dim : Nat) : BBox :=
  (((BBox.corners b).take (1 <<< dim)).map (fun p => mulVec m p)).foldl
    BBox.mergePoint BBox.init

/-- Point membership: the box contains p when min ≤ p ≤ max componentwise. -/
def BBox.contains (b : BBox) (p : Vec4) : Prop :=
  Vec4.le b.min p ∧ Vec4.le p b.max

instance (b : BBox) (p : Vec4) : Decidable (b.contains p) := by
  unfold BBox.contains; infer_instance

/-- A box is valid when min ≤ max componentwise. -/
def BBox.valid (b : BBox) : Prop := Vec4.le b.min b.max

instance (b : BBox) : Decidable b.valid := by
  unfold BBox.valid; infer_instance

theorem Vec4.le_refl (a : Vec4) : Vec4.le a a :=
  ⟨le_rfl, le_rfl, le_rfl, le_rfl⟩

theorem Vec4.le_trans {a b c : Vec4} (h1 : Vec4.le a b) (h2 : Vec4.le b c) :
    Vec4.le a c :=
  ⟨h1.1.trans h2.1, h1.2.1.trans h2.2.1, h1.2.2.1.trans h2.2.2.1,
   h1.2.2.2.trans h2.2.2.2⟩

theorem nvMin_le_left (a b : Vec4) : Vec4.le (nvMin a b) a :=
  ⟨min_le_left _ _, min_le_left _ _, min_le_left _ _, min_le_left _ _⟩

theorem nvMin_le_right (a b : Vec4) : Vec4.le (nvMin a b) b :=
  ⟨min_le_right _ _, min_le_right _ _, min_le_right _ _, min_le_right _ _⟩

theorem le_nvMax_left (a b : Vec4) : Vec4.le a (nvMax a b) :=
  ⟨le_max_left _ _, le_max_left _ _, le_max_left _ _, le_max_left _ _⟩

theorem le_nvMax_right (a b : Vec4) : Vec4.le b (nvMax a b) :=
  ⟨le_max_right _ _, le_max_right _ _, le_max_right _ _, le_max_right _ _⟩

theorem Vec4.le_nvMin {c a b : Vec4} (ha : Vec4.le c a) (hb : Vec4.le c b) :
    Vec4.le c (nvMin a b) :=
  ⟨le_min ha.1 hb.1, le_min ha.2.1 hb.2.1, le_min ha.2.2.1 hb.2.2.1,
   le_min ha.2.2.2 hb.2.2.2⟩

theorem Vec4.nvMax_le {a b c : Vec4} (ha : Vec4.le a c) (hb : Vec4.le b c) :
    Vec4.le (nvMax a b) c :=
  ⟨max_le ha.1 hb.1, max_le ha.2.1 hb.2.1, max_le ha.2.2.1 hb.2.2.1,
   max_le ha.2.2.2 hb.2.2.2⟩

theorem merge_contains_left {A : BBox} (B : BBox) {p : Vec4}
    (h : A.contains p) : (A.merge B).contains p :=
  ⟨Vec4.le_trans (nvMin_le_left _ _) h.1, Vec4.le_trans h.2 (le_nvMax_left _ _)⟩

theorem merge_contains_right (A : BBox) {B : BBox} {p : Vec4}
    (h : B.contains p) : (A.merge B).contains p :=
  ⟨Vec4.le_trans (nvMin_le_right _ _) h.1,
   Vec4.le_trans h.2 (le_nvMax_right _ _)⟩

theorem mergePoint_contains_self (b : BBox) (p : Vec4) :
    (b.mergePoint p).contains p :=
  ⟨nvMin_le_right _ _, le_nvMax_right _ _⟩

theorem mergePoint_contains_of_contains (b : BBox) (p : Vec4) {q : Vec4}
    (h : b.contains q) : (b.mergePoint p).contains q :=
  ⟨Vec4.le_trans (nvMin_le_left _ _) h.1, Vec4.le_trans h.2 (le_nvMax_left _ _)⟩

theorem foldl_mergePoint_contains_init {l : List Vec4} {b : BBox} {q : Vec4}
    (h : b.contains q) : (l.foldl BBox.mergePoint b).contains q := by
  induction l generalizing b with
  | nil => exact h
  | cons p t ih => exact ih (mergePoint_contains_of_contains b p h)

theorem foldl_mergePoint_contains_mem {l : List Vec4} {b : BBox} {q : Vec4}
    (h : q ∈ l) : (l.foldl BBox.mergePoint b).contains q := by
  induction l generalizing b with
  | nil => cases h
  | cons p t ih =>
    simp only [List.foldl_cons]
    rcases List.mem_cons.mp h with h1 | h2
    · subst h1
      exact foldl_mergePoint_contains_init (mergePoint_contains_self b q)
    · exact ih h2

/-- C2: For all bounding boxes A and B, A.merge(B) has min equal to the
componentwise min of the two min vectors and max equal to the componentwise
max of the two max vectors; it contains every point that A contains and
every point that B contains; and for valid A and B it is the smallest such
box: any box C containing all points of A and of B nests the merged box
(C.min ≤ merged.min and merged.max ≤ C.max componentwise). -/
theorem C2_merge_componentwise (A B : BBox) :
    (A.merge B).min = nvMin A.min B.min ∧
    (A.merge B).max = nvMax A.max B.max ∧
    (∀ p : Vec4, A.contains p → (A.merge B).contains p) ∧
    (∀ p : Vec4, B.contains p → (A.merge B).contains p) ∧
    (A.valid → B.valid →
      ∀ C : BBox, (∀ p : Vec4, A.contains p → C.contains p) →
        (∀ p : Vec4, B.contains p → C.contains p) →
        Vec4.le C.min (A.merge B).min ∧ Vec4.le (A.merge B).max C.max) := by
  refine ⟨rfl, rfl, fun p h => merge_contains_left B h,
    fun p h => merge_contains_right A h, fun hA hB C hCA hCB => ?_⟩
  have cAmin : C.contains A.min := hCA A.min ⟨Vec4.le_refl _, hA⟩
  have cBmin : C.contains B.min := hCB B.min ⟨Vec4.le_refl _, hB⟩
  have cAmax : C.contains A.max := hCA A.max ⟨hA, Vec4.le_refl _⟩
  have cBmax : C.contains B.max := hCB B.max ⟨hB, Vec4.le_refl _⟩
  exact ⟨Vec4.le_nvMin cAmin.1 cBmin.1, Vec4.nvMax_le cAmax.2 cBmax.2⟩

def boxU : BBox := ⟨⟨0, 0, 0, 0⟩, ⟨1, 1, 1, 1⟩⟩

def boxV : BBox := ⟨⟨2, 0, 0, 0⟩, ⟨3, 1, 1, 1⟩⟩

/-- Witness for C2 at the concrete boxes boxU and boxV. -/
theorem C2_merge_componentwise_witness :
    (boxU.merge boxV).contains ⟨1, 0, 0, 0⟩ ∧
    Vec4.le (boxU.merge boxV).min (boxU.merge boxV).min ∧
    Vec4.le (boxU.merge boxV).max (boxU.merge boxV).max :=
  ⟨(C2_merge_componentwise boxU boxV).2.2.1 _ (by decide),
   ((C2_merge_componentwise boxU boxV).2.2.2.2 (by decide) (by decide)
      (boxU.merge boxV) (fun p hp => merge_contains_left boxV hp)
      (fun p hp => merge_contains_right boxU hp)).1,
   ((C2_merge_componentwise boxU boxV).2.2.2.2 (by decide) (by decide)
      (boxU.merge boxV) (fun p hp => merge_contains_left boxV hp)
      (fun p hp => merge_contains_right boxU hp)).2⟩

/-- C1 counterexample: the claim states that at dim = 3 the corners' 4th
coordinate is drawn from min.w or max.w depending on corner group
(w-extent corners included) and that the result contains the transform of
every original corner.  In the code the loop bound is 1 << 3 = 8, so only
corners box[0..7] — all with 4th coordinate min.w — are visited.  For the
box with min = (0,0,0,0), max = (1,1,1,1) under the identity matrix, the
w-extent corner box[8] = (0,0,0,1) transforms to (0,0,0,1), which the
resulting box does not contain (its max.w is 0). -/
theorem C1_counterexample :
    (BBox.corners boxU).getD 8 Vec4.zero = ⟨0, 0, 0, 1⟩ ∧
    ¬ (boxU.transformed Mat4.identity 3).contains
        (mulVec Mat4.identity ⟨0, 0, 0, 1⟩) := by
  constructor
  · rfl
  · intro hc
    have hw : (1 : Rat) ≤ 0 := by
      have h2 := hc.2.2.2.2
      simpa [boxU, BBox.transformed, BBox.corners, BBox.init, BBox.mergePoint,
        nvMin, nvMax, mulVec, dot, Mat4.identity, fltMax, min_def, max_def,
        Vec4.le] using h2
    norm_num at hw

/-- C1 (amended): A.transformed(M, 3) enumerates the 2^3 corners of A (all
combinations of min/max per axis, the 4th coordinate always min.w — the
w-extent corner group is reached only when dim = 4), applies M to each,
folds them into a fresh box via merge, and the resulting box contains the
transform of each of those 8 enumerated corners. -/
theorem C1_transformed_corners (b : BBox) (m : Mat4) (c : Vec4)
    (h : c ∈ (BBox.corners b).take (1 <<< 3)) :
    BBox.transformed b m 3 =
      (((BBox.corners b).take (1 <<< 3)).map (fun p => mulVec m p)).foldl
        BBox.mergePoint BBox.init ∧
    c.w = b.min.w ∧
    (b.transformed m 3).contains (mulVec m c) := by
  refine ⟨rfl, ?_, ?_⟩
  · have he : (BBox.corners b).take (1 <<< 3) =
        [⟨b.min.x, b.min.y, b.min.z, b.min.w⟩,
         ⟨b.max.x, b.min.y, b.min.z, b.min.w⟩,
         ⟨b.min.x, b.max.y, b.min.z, b.min.w⟩,
         ⟨b.max.x, b.max.y, b.min.z, b.min.w⟩,
         ⟨b.min.x, b.min.y, b.max.z, b.min.w⟩,
         ⟨b.max.x, b.min.y, b.max.z, b.min.w⟩,
         ⟨b.min.x, b.max.y, b.max.z, b.min.w⟩,
         ⟨b.max.x, b.max.y, b.max.z, b.min.w⟩] := rfl
    rw [he] at h
    simp only [List.mem_cons, List.not_mem_nil, or_false] at h
    rcases h with rfl | rfl | rfl | rfl | rfl | rfl | rfl | rfl <;> rfl
  · exact foldl_mergePoint_contains_mem (List.mem_map_of_mem _ h)

/-- Witness for C1 (amended) at the corner box[0] of the box boxU under
the identity matrix. -/
theorem C1_transformed_corners_witness :
    (⟨0, 0, 0, 0⟩ : Vec4).w = boxU.min.w ∧
    (boxU.transformed Mat4.identity 3).contains
      (mulVec Mat4.identity ⟨0, 0, 0, 0⟩) :=
  ⟨(C1_transformed_corners boxU Mat4.identity ⟨0, 0, 0, 0⟩ (by decide)).2.1,
   (C1_transformed_corners boxU Mat4.identity ⟨0, 0, 0, 0⟩ (by decide)).2.2⟩

/-- C5 counterexample: the claim says a default-constructed BBox has min at
positive infinity in every component.  In the code (cadscene.hpp lines
41-45) min is initialised to FLT_MAX, the largest finite float, which does
not dominate every value: the finite value FLT_MAX + 1 strictly exceeds
the default box's min.x, refuting min.x = +inf. -/
theorem C5_counterexample :
    BBox.init.min.x = fltMax ∧ ¬ (fltMax + 1 ≤ BBox.init.min.x) := by
  constructor
  · rfl
  · intro h
    have : (0 : Rat) < 1 := by norm_num
    simp only [BBox.init, fltMax] at h
    linarith

/-- C5 (amended): a default-constructed BBox starts at the
(+FLT_MAX, -FLT_MAX) sentinel — min at the largest finite float value and
max at its negation in every component — so it is not a valid box
(min ≤ max fails), and it becomes valid after merging any point. -/
theorem C5_sentinel_init (p : Vec4) :
    BBox.init.min = ⟨fltMax, fltMax, fltMax, fltMax⟩ ∧
    BBox.init.max = ⟨-fltMax, -fltMax, -fltMax, -fltMax⟩ ∧
    ¬ BBox.init.valid ∧
    (BBox.init.mergePoint p).valid := by
  refine ⟨rfl, rfl, ?_, ?_⟩
  · intro h
    have hx : fltMax ≤ -fltMax := h.1
    have : (0 : Rat) < fltMax := by norm_num [fltMax]
    linarith
  · exact ⟨(min_le_right _ _).trans (le_max_right _ _),
      (min_le_right _ _).trans (le_max_right _ _),
      (min_le_right _ _).trans (le_max_right _ _),
      (min_le_right _ _).trans (le_max_right _ _)⟩

/-- C8: box merge is associative and commutative — merging B then C into A
equals merging C then B into A, (A merge B) merge C equals
A merge (B merge C), A merge B equals B merge A — and point merges commute
likewise. -/
theorem C8_merge_assoc_comm (A B C : BBox) (p q : Vec4) :
    (A.merge B).merge C = A.merge (B.merge C) ∧
    (A.merge B).merge C = (A.merge C).merge B ∧
    A.merge B = B.merge A ∧
    (A.mergePoint p).mergePoint q = (A.mergePoint q).mergePoint p := by
  refine ⟨?_, ?_, ?_, ?_⟩ <;>
    simp [BBox.merge, BBox.mergePoint, nvMin, nvMax, BBox.mk.injEq,
      Vec4.mk.injEq, min_assoc, max_assoc, min_comm, max_comm,
      min_left_comm, max_left_comm]

/-!
Byte-size model of the plain-data record types of cadscene.hpp.  Sizes are
computed from the field lists in declaration order; every field of these
records has an alignment dividing its offset, so the compiler inserts no
padding and sizeof is the plain sum of the field sizes.
-/

/-- sizeof(half): half is a typedef for unsigned short (line 30). -/
def sizeofHalf : Nat := 2

/-- sizeof(float). -/
def sizeofFloat : Nat := 4

/-- sizeof(uint32_t). -/
def sizeofUint32 : Nat := 4

/-- sizeof(nvmath::vec3f): 3 floats. -/
def sizeofVec3f : Nat := 3 * sizeofFloat

/-- sizeof(nvmath::vec4f): 4 floats. -/
def sizeofVec4f : Nat := 4 * sizeofFloat

/-- sizeof(nvmath::mat4f): 16 floats. -/
def sizeofMat4f : Nat := 16 * sizeofFloat

/-- sizeof(CadScene::Vertex) (lines 130-133): one vec4f position. -/
def sizeofVertex : Nat := sizeofVec4f

/-- sizeof(CadScene::VertexFP16) (lines 140-143): half position[4]. -/
def sizeofVertexFP16 : Nat := 4 * sizeofHalf

/-- sizeof(CadScene::MaterialSide) (lines 96-102): four vec4f colors. -/
def sizeofMaterialSide : Nat := 4 * sizeofVec4f

/-- sizeof(CadScene::Material) (lines 105-115): MaterialSide sides[2] and
uint32_t _pad[8 * 4]. -/
def sizeofMaterial : Nat := 2 * sizeofMaterialSide + 8 * 4 * sizeofUint32

/-- sizeof(CadScene::MatrixNode) (lines 118-128): three mat4f, two vec4f
(bboxMin, bboxMax), one vec3f _pad0, one float winding, one vec4f color. -/
def sizeofMatrixNode : Nat :=
  3 * sizeofMat4f + 2 * sizeofVec4f + sizeofVec3f + sizeofFloat + sizeofVec4f

/-- The meshlet builder variants of config.h referenced by LoadConfig. -/
inductive MeshletBuilderType where
  | packbasic
deriving DecidableEq, Repr

/-- CadScene::LoadConfig (lines 274-288) with its in-class defaults. -/
structure LoadConfig where
  scale : Rat := 1
  verbose : Bool := true
  fp16 : Bool := false
  allowShorts : Bool := true
  colorizeExtra : Bool := false
  extraAttributes : Nat := 0
  meshVertexCount : Nat := 64
  meshPrimitiveCount : Nat := 126
  meshBuilder : MeshletBuilderType := MeshletBuilderType.packbasic
deriving DecidableEq, Repr

/-- CadScene::getVertexSize (line 314): sizeof(VertexFP16) when cfg.fp16,
else sizeof(Vertex). -/
def getVertexSize (cfg : LoadConfig) : Nat :=
  if cfg.fp16 then sizeofVertexFP16 else sizeofVertex

/-- CadScene::getVertexAttributeSize (lines 316-320). -/
def getVertexAttributeSize (cfg : LoadConfig) : Nat :=
  if cfg.fp16 then 4 * sizeofHalf + sizeofHalf * 4 * cfg.extraAttributes
  else sizeofVec4f + sizeofFloat * 4 * cfg.extraAttributes

/-- C6: with cfg.fp16 = true the vertex size accessor returns
sizeof(half) * 4, the size of VertexFP16; with cfg.fp16 = false it returns
sizeof(float) * 4, the size of Vertex. -/
theorem C6_vertex_size (cfg : LoadConfig) :
    (cfg.fp16 = true →
      getVertexSize cfg = sizeofVertexFP16 ∧
      getVertexSize cfg = sizeofHalf * 4) ∧
    (cfg.fp16 = false →
      getVertexSize cfg = sizeofVertex ∧
      getVertexSize cfg = sizeofFloat * 4) := by
  constructor
  · intro h
    simp [getVertexSize, h, sizeofVertexFP16, sizeofHalf]
  · intro h
    simp [getVertexSize, h, sizeofVertex, sizeofVec4f, sizeofFloat]

/-- Witness for C6 at the two concrete configurations. -/
theorem C6_vertex_size_witness :
    getVertexSize { fp16 := true } = sizeofHalf * 4 ∧
    getVertexSize {} = sizeofFloat * 4 :=
  ⟨((C6_vertex_size { fp16 := true }).1 rfl).2,
   ((C6_vertex_size {}).2 rfl).2⟩

/-- C7: sizeof(Material) and sizeof(MatrixNode) are compile-time constants
equal to 256 bytes, the hardware uniform-buffer range granularity. -/
theorem C7_ubo_record_sizes :
    sizeofMaterial = 256 ∧ sizeofMatrixNode = 256 := by decide

/-- CadScene::DrawIndirectElements (lines 150-166), fields in declaration
order; count/primCount/firstIndex/baseInstance are uint32_t, baseVertex is
int32_t. -/
structure DrawIndirectElements where
  count : Nat
  primCount : Nat
  firstIndex : Nat
  baseVertex : Int
  baseInstance : Nat
deriving DecidableEq, Repr

/-- The default constructor DrawIndirectElements() (lines 158-165). -/
def DrawIndirectElements.init : DrawIndirectElements :=
  { count := 0, primCount := 1, firstIndex := 0, baseVertex := 0,
    baseInstance := 0 }

/-- C10: a default-constructed DrawIndirectElements has count = 0,
firstIndex = 0, baseVertex = 0, baseInstance = 0 and primCount = 1: one
instance of zero indices. -/
theorem C10_draw_indirect_defaults :
    DrawIndirectElements.init.count = 0 ∧
    DrawIndirectElements.init.firstIndex = 0 ∧
    DrawIndirectElements.init.baseVertex = 0 ∧
    DrawIndirectElements.init.baseInstance = 0 ∧
    DrawIndirectElements.init.primCount = 1 := by decide

/-!
Scene container and load/unload lifecycle.  cadscene.hpp declares
CadScene::loadCSF (line 310) and CadScene::unload (line 311) but their
implementations are in a translation unit that is not part of this
repository fragment, so the lifecycle is modelled from the spec
(sections 3, 4.3 and 7).
-/

/-- Model of a CadScene::Geometry entry (lines 217-255), reduced to the
size and count fields the lifecycle claims are about. -/
structure GeometryM where
  numVertices : Nat
  numIndexSolid : Nat
  numParts : Nat
  vboSize : Nat
  iboSize : Nat
  meshSize : Nat
deriving DecidableEq, Repr

/-- Model of a CadScene::Object entry (lines 264-272). -/
structure ObjectM where
  matrixIndex : Nat
  geometryIndex : Nat
  numParts : Nat
deriving DecidableEq, Repr

/-- Model of a CadScene::MatrixNode entry (lines 118-128), reduced to the
world matrix. -/
structure MatrixNodeM where
  worldMatrix : Mat4
deriving DecidableEq, Repr

/-- The scene container state: the members of CadScene
(cadscene.hpp lines 290-308). -/
structure SceneState where
  m_materials : List Nat
  m_bboxes : List BBox
  m_geometry : List GeometryM
  m_matrices : List MatrixNodeM
  m_objects : List ObjectM
  m_vboSize : Nat
  m_iboSize : Nat
  m_meshSize : Nat
  m_numGeometryParts : Nat
  m_numObjectParts : Nat
  m_cfg : LoadConfig
  m_bbox : BBox
  m_bboxInstanced : BBox
  m_numOrigGeometries : Nat
  m_numOrigMatrices : Nat
  m_numOrigObjects : Nat
deriving DecidableEq, Repr

/-- The Empty scene state: all containers empty, all size and count fields
zero, bounding boxes back at the default sentinel. -/
def SceneState.emptyState (cfg : LoadConfig) : SceneState :=
  { m_materials := [], m_bboxes := [], m_geometry := [], m_matrices := [],
    m_objects := [], m_vboSize := 0, m_iboSize := 0, m_meshSize := 0,
    m_numGeometryParts := 0, m_numObjectParts := 0, m_cfg := cfg,
    m_bbox := BBox.init, m_bboxInstanced := BBox.init,
    m_numOrigGeometries := 0, m_numOrigMatrices := 0,
    m_numOrigObjects := 0 }

/-- Modelled from the spec: the implementation of CadScene::unload is not
in this repository fragment (cadscene.hpp line 311 is only the
declaration).  Spec section 4.3: releases every owned buffer, clears all
containers, resets all size and count fields to zero; safe to invoke on an
already-empty scene. -/
def SceneState.unload (s : SceneState) : SceneState :=
  SceneState.emptyState s.m_cfg

/-- A scene retains no data: every container is empty and every size and
count field is zero. -/
def SceneState.isCleared (s : SceneState) : Prop :=
  s.m_materials = [] ∧ s.m_bboxes = [] ∧ s.m_geometry = [] ∧
  s.m_matrices = [] ∧ s.m_objects = [] ∧ s.m_vboSize = 0 ∧
  s.m_iboSize = 0 ∧ s.m_meshSize = 0 ∧ s.m_numGeometryParts = 0 ∧
  s.m_numObjectParts = 0 ∧ s.m_numOrigGeometries = 0 ∧
  s.m_numOrigMatrices = 0 ∧ s.m_numOrigObjects = 0

instance (s : SceneState) : Decidable s.isCleared := by
  unfold SceneState.isCleared; infer_instance

/-- Modelled from the spec: parsed content of a CSF source (spec section
6): per geometry a vertex/index/part description, per object a transform
and geometry reference, plus the failure modes of spec section 7 that can
strike mid-load (index overflow, allocation failure). -/
structure CSFContent where
  materials : List Nat
  bboxes : List BBox
  geometries : List GeometryM
  matrices : List MatrixNodeM
  objects : List ObjectM
  indexOverflow : Bool
  allocFailure : Bool
deriving DecidableEq, Repr

/-- Modelled from the spec: a CSF source is unreadable, malformed, or
parses to content (spec section 7 taxonomy). -/
inductive CSFSource where
  | unreadable
  | malformed
  | parsed (c : CSFContent)
deriving DecidableEq, Repr

/-- Clone replication rounds: round k maps the original entries through g k
and appends them, modelling one clone of the object/matrix set. -/
def cloneRounds {α : Type} (g : Nat → α → α) (l : List α) : Nat → List α
  | 0 => []
  | k + 1 => cloneRounds g l k ++ l.map (g k)

theorem length_cloneRounds {α : Type} (g : Nat → α → α) (l : List α)
    (n : Nat) : (cloneRounds g l n).length = n * l.length := by
  induction n with
  | zero => simp [cloneRounds]
  | succ k ih => simp [cloneRounds, ih, Nat.succ_mul]

/-- Add d to the translation entry of the given axis row, offsetting a
world matrix along that axis. -/
def Mat4.shiftAxis (m : Mat4) (axis : Nat) (d : Rat) : Mat4 :=
  if axis = 0 then { m with r0 := { m.r0 with w := m.r0.w + d } }
  else if axis = 1 then { m with r1 := { m.r1 with w := m.r1.w + d } }
  else if axis = 2 then { m with r2 := { m.r2 with w := m.r2.w + d } }
  else m

/-- Modelled from the spec: clone k of the object set references the
matrix block of clone k, i.e. matrix indices are offset by a block of the
original matrix count per clone. -/
def cloneObject (numOrigMatrices : Nat) (k : Nat) (o : ObjectM) : ObjectM :=
  { o with matrixIndex := o.matrixIndex + (k + 1) * numOrigMatrices }

/-- Modelled from the spec: clone k of the matrix set is the original set
offset along the clone axis so clones do not overlap (cloneaxis 0/1/2
picks x/y/z; 3 means auto-pick, modelled as x since the original heuristic
is not recoverable — spec section 9 open question).  The offset magnitude
is abstracted to k + 1 extents. -/
def cloneMatrix (cloneaxis : Nat) (k : Nat) (m : MatrixNodeM) : MatrixNodeM :=
  ⟨Mat4.shiftAxis m.worldMatrix (if cloneaxis < 3 then cloneaxis else 0)
    ((k : Rat) + 1)⟩

/-- Modelled from the spec: the Loaded state built from parsed content
(spec section 4.3): geometry is taken as-is (shared between clones),
objects and matrices are replicated once per clone, original counts are
recorded separately, aggregate sizes are summed over geometries, and the
scene and instanced bounding boxes are folded from the part boxes. -/
def buildLoaded (cfg : LoadConfig) (c : CSFContent) (clones : Nat)
    (cloneaxis : Nat) : SceneState :=
  { m_materials := c.materials,
    m_bboxes := c.bboxes,
    m_geometry := c.geometries,
    m_matrices := c.matrices ++
      cloneRounds (cloneMatrix cloneaxis) c.matrices clones,
    m_objects := c.objects ++
      cloneRounds (cloneObject c.matrices.length) c.objects clones,
    m_vboSize := (c.geometries.map GeometryM.vboSize).sum,
    m_iboSize := (c.geometries.map GeometryM.iboSize).sum,
    m_meshSize := (c.geometries.map GeometryM.meshSize).sum,
    m_numGeometryParts := (c.geometries.map GeometryM.numParts).sum,
    m_numObjectParts := (c.objects.map ObjectM.numParts).sum,
    m_cfg := cfg,
    m_bbox := c.bboxes.foldl BBox.merge BBox.init,
    m_bboxInstanced := (c.objects.map
      (fun o => (c.bboxes.foldl BBox.merge BBox.init).transformed
        ((c.matrices.map MatrixNodeM.worldMatrix).getD o.matrixIndex
          Mat4.identity) 3)).foldl BBox.merge BBox.init,
    m_numOrigGeometries := c.geometries.length,
    m_numOrigMatrices := c.matrices.length,
    m_numOrigObjects := c.objects.length }

/-- Modelled from the spec: CadScene::loadCSF (declared cadscene.hpp line
310, implementation not in this fragment).  Spec sections 4.3 and 7: an
unreadable or malformed source fails; index overflow or allocation failure
during the build aborts the load; every failure rolls the scene back to the
Empty state via unload; otherwise the Loaded state is produced. -/
def loadCSF (s : SceneState) (src : CSFSource) (cfg : LoadConfig)
    (clones : Nat) (cloneaxis : Nat) : Bool × SceneState :=
  match src with
  | CSFSource.unreadable => (false, SceneState.unload { s with m_cfg := cfg })
  | CSFSource.malformed => (false, SceneState.unload { s with m_cfg := cfg })
  | CSFSource.parsed c =>
    if c.indexOverflow || c.allocFailure then
      (false, SceneState.unload (buildLoaded cfg c clones cloneaxis))
    else
      (true, buildLoaded cfg c clones cloneaxis)

/-- C3: every failure during load — source unreadable, parse failure,
index overflow, allocation failure — aborts the load and rolls the scene
back to the Empty state: when loadCSF reports failure, no data is retained
in any container or size field. -/
theorem C3_load_failure_rollback (s : SceneState) (src : CSFSource)
    (cfg : LoadConfig) (clones cloneaxis : Nat)
    (h : (loadCSF s src cfg clones cloneaxis).1 = false) :
    ((loadCSF s src cfg clones cloneaxis).2).isCleared := by
  cases src with
  | unreadable =>
    simp [loadCSF, SceneState.unload, SceneState.emptyState,
      SceneState.isCleared]
  | malformed =>
    simp [loadCSF, SceneState.unload, SceneState.emptyState,
      SceneState.isCleared]
  | parsed c =>
    by_cases hfail : (c.indexOverflow || c.allocFailure) = true
    · simp [loadCSF, hfail, SceneState.unload, SceneState.emptyState,
        SceneState.isCleared]
    · simp [loadCSF, hfail] at h

/-- Witness for C3 at a concrete failing load (unreadable source). -/
theorem C3_load_failure_rollback_witness :
    (loadCSF (SceneState.emptyState {}) CSFSource.unreadable {} 0 3).1 =
      false ∧
    ((loadCSF (SceneState.emptyState {}) CSFSource.unreadable {} 0 3).2
      ).isCleared :=
  ⟨rfl,
   C3_load_failure_rollback (SceneState.emptyState {}) CSFSource.unreadable
     {} 0 3 rfl⟩

/-- C4: every successful loadCSF call with clones = N leaves the scene
with exactly (N+1) * m_numOrigObjects objects and (N+1) * m_numOrigMatrices
matrices, while m_geometry.size() equals m_numOrigGeometries: geometry is
shared between clones, not duplicated. -/
theorem C4_clone_counts (s : SceneState) (src : CSFSource)
    (cfg : LoadConfig) (clones cloneaxis : Nat)
    (h : (loadCSF s src cfg clones cloneaxis).1 = true) :
    ((loadCSF s src cfg clones cloneaxis).2).m_objects.length =
      (clones + 1) *
        ((loadCSF s src cfg clones cloneaxis).2).m_numOrigObjects ∧
    ((loadCSF s src cfg clones cloneaxis).2).m_matrices.length =
      (clones + 1) *
        ((loadCSF s src cfg clones cloneaxis).2).m_numOrigMatrices ∧
    ((loadCSF s src cfg clones cloneaxis).2).m_geometry.length =
      ((loadCSF s src cfg clones cloneaxis).2).m_numOrigGeometries := by
  cases src with
  | unreadable => simp [loadCSF] at h
  | malformed => simp [loadCSF] at h
  | parsed c =>
    by_cases hfail : (c.indexOverflow || c.allocFailure) = true
    · simp [loadCSF, hfail] at h
    · refine ⟨?_, ?_, ?_⟩ <;>
        simp [loadCSF, hfail, buildLoaded, length_cloneRounds] <;> ring

/-- Witness for C4 at a concrete successful load: one geometry, one
matrix, one object, two clones. -/
theorem C4_clone_counts_witness :
    (loadCSF (SceneState.emptyState {})
        (CSFSource.parsed
          { materials := [0], bboxes := [boxU],
            geometries := [⟨3, 3, 1, 48, 12, 0⟩],
            matrices := [⟨Mat4.identity⟩], objects := [⟨0, 0, 1⟩],
            indexOverflow := false, allocFailure := false }) {} 2 0).1 =
      true ∧
    ((loadCSF (SceneState.emptyState {})
        (CSFSource.parsed
          { materials := [0], bboxes := [boxU],
            geometries := [⟨3, 3, 1, 48, 12, 0⟩],
            matrices := [⟨Mat4.identity⟩], objects := [⟨0, 0, 1⟩],
            indexOverflow := false, allocFailure := false }) {} 2 0).2
      ).m_objects.length = 3 :=
  ⟨rfl,
   (C4_clone_counts (SceneState.emptyState {})
      (CSFSource.parsed
        { materials := [0], bboxes := [boxU],
          geometries := [⟨3, 3, 1, 48, 12, 0⟩],
          matrices := [⟨Mat4.identity⟩], objects := [⟨0, 0, 1⟩],
          indexOverflow := false, allocFailure := false }) {} 2 0 rfl).1⟩

/-- C9: unload is idempotent and safe on an empty scene: for every scene
state, unloading twice equals unloading once, and after unload all size
and count fields are zero and all containers are empty. -/
theorem C9_unload_idempotent (s : SceneState) :
    (s.unload).unload = s.unload ∧ (s.unload).isCleared := by
  constructor
  · rfl
  · simp [SceneState.unload, SceneState.emptyState, SceneState.isCleared]

end CadScene
